import Mathlib

/-!
# Verification of the OpenShift telemetry percentage script

A shallow embedding, in Lean 4, of the aggregation core of
`openshift_telemetry_percentage_script.py` (class `CloudBoltOpenshiftMetrics`).

Modelling conventions:
* Python floats are modelled by exact rationals (`ℚ`); none of the verified
  properties depends on binary floating-point representation error.
* Python's `round(x, 4)` rounds half to even at 4 decimal places; it is
  modelled by `round4` built on `roundHalfEven`.
* Python dicts with a fixed key set are modelled by structures; the transient
  `node_id` key of a namespace-utilization dict (present when built, popped
  before insertion) is modelled by an `Option String` field.
* A raised Python exception that propagates to the caller is modelled by
  `Option`/`none` (the `ZeroDivisionError` that is caught locally inside
  `__calculate_percentage` is modelled by the zero-capacity branch).
* Unit strings are the source's literals: `"milicores"` (the spec's
  "milli-units") and `"MiB"` (the spec's "binary-mega-units").
-/

namespace OpenshiftCollector

/-- Round-half-to-even of a rational to an integer, the tie rule of Python's
built-in `round`. -/
def roundHalfEven (q : ℚ) : ℤ :=
  if q - Rat.floor q < 1/2 then Rat.floor q
  else if 1/2 < q - Rat.floor q then Rat.floor q + 1
  else if Rat.floor q % 2 = 0 then Rat.floor q else Rat.floor q + 1

/-- Python's `round(x, 4)`: round half to even at 4 decimal places. -/
def round4 (q : ℚ) : ℚ := (roundHalfEven (q * 10000) : ℚ) / 10000

/-- Source `__convert_milicores_to_cores`: divide by 1000. -/
def convert_milicores_to_cores (milicores : ℚ) : ℚ := milicores / 1000

/-- Source `__convert_mb_to_gb`: divide by 1024. -/
def convert_mb_to_gb (mb : ℚ) : ℚ := mb / 1024

/-- The unit-dispatch performed on `actual_usage` inside
`__calculate_percentage` (lines 121–124): `"milicores"` is divided by 1000,
`"MiB"` is divided by 1024, any other unit string passes through unchanged.
The two `if`s are sequential in the source; the unit cannot equal both
strings, so they act as a dispatch. -/
def convert (value : ℚ) (unit : String) : ℚ :=
  let value := if unit = "milicores" then convert_milicores_to_cores value else value
  let value := if unit = "MiB" then convert_mb_to_gb value else value
  value

/-- Source `__calculate_percentage`: coerce to float, convert the usage by its unit,
return `round(usage / capacity * 100, 4)`; a `ZeroDivisionError` (capacity is
`0.0`) is caught and mapped to `0.0`.  `capacity_unit` is accepted and ignored,
exactly as in the source. -/
def calculate_percentage (capacity actual_usage : ℚ)
    (capacity_unit actual_usage_unit : String) : ℚ :=
  let actual_usage := convert actual_usage actual_usage_unit
  if capacity = 0 then 0 else round4 (actual_usage / capacity * 100)

/-! ## Data model

Record dicts from the two API responses, and the aggregator's state.
The Python `namespace` key is spelled `nspace` (`namespace` is a Lean
keyword). -/

/-- A capacity record, one element of `capacity_map_array`. -/
structure CapacityRecord where
  node_id : String
  nspace : String
  pod_name : String
  node_capacity_cpu : ℚ
  node_capacity_cpu_unit : String
  node_capacity_memory : ℚ
  node_capacity_memory_unit : String
  deriving Repr, DecidableEq

/-- A usage record, one element of a usage-report page's `response`. -/
structure UsageRecord where
  node_id : String
  node_name : String
  nspace : String
  pod_name : String
  pod_usage_cpu : ℚ
  pod_usage_cpu_unit : String
  pod_request_cpu : ℚ
  pod_request_cpu_unit : String
  pod_usage_memory : ℚ
  pod_usage_memory_unit : String
  pod_request_memory : ℚ
  pod_request_memory_unit : String
  deriving Repr, DecidableEq

/-- The `percentages` dict built by `__metric_usage_percentage`: all four keys
are always present, in this insertion order. -/
structure PercentageBundle where
  cpu_usage_percentage : ℚ
  memory_usage_percentage : ℚ
  cpu_request_percentage : ℚ
  memory_request_percentage : ℚ
  deriving Repr, DecidableEq

/-- Python `max(list(bundle.values()))`: the maximum of the four percentage values
(Python dict values come in insertion order; the maximum value does not depend
on that order). -/
def bundleMax (p : PercentageBundle) : ℚ :=
  max p.cpu_usage_percentage
    (max p.memory_usage_percentage
      (max p.cpu_request_percentage p.memory_request_percentage))

/-- A namespace-utilization dict.  `node_id` is `some _` exactly while the
transient `"node_id"` key is present (it is popped by
`__build_node_id_wise_result` before the dict is stored). -/
structure NamespaceUtilizationEntry where
  nspace : String
  utilization : ℚ
  utilization_unit : String
  node_id : Option String
  details : PercentageBundle
  deriving Repr, DecidableEq

/-- A node record, one element of `node_id_wise_reponse`. -/
structure NodeRecord where
  node_id : String
  node_name : String
  utilization_detail : List NamespaceUtilizationEntry
  deriving Repr, DecidableEq

/-! ## Capacity index and percentage bundles -/

/-- The `next(...)` lookup in `__metric_usage_percentage` (line 108): first
capacity record matching `(node_id, namespace, pod_name)`, else `None`. -/
def lookupCapacity (caps : List CapacityRecord)
    (node_id nspace pod_name : String) : Option CapacityRecord :=
  caps.find? fun c =>
    c.node_id = node_id ∧ c.nspace = nspace ∧ c.pod_name = pod_name

/-- Source `__metric_usage_percentage` (lines 107–115).  When the capacity lookup
yields `None`, the source immediately subscripts `None` and raises a
`TypeError` that propagates to the caller; this is modelled by `none`. -/
def metric_usage_percentage (caps : List CapacityRecord)
    (metrics : UsageRecord) : Option PercentageBundle :=
  match lookupCapacity caps metrics.node_id metrics.nspace metrics.pod_name with
  | none => none
  | some capacity_details => some
      { cpu_usage_percentage := calculate_percentage
          capacity_details.node_capacity_cpu metrics.pod_usage_cpu
          capacity_details.node_capacity_cpu_unit metrics.pod_usage_cpu_unit
        memory_usage_percentage := calculate_percentage
          capacity_details.node_capacity_memory metrics.pod_usage_memory
          capacity_details.node_capacity_memory_unit metrics.pod_usage_memory_unit
        cpu_request_percentage := calculate_percentage
          capacity_details.node_capacity_cpu metrics.pod_request_cpu
          capacity_details.node_capacity_cpu_unit metrics.pod_request_cpu_unit
        memory_request_percentage := calculate_percentage
          capacity_details.node_capacity_memory metrics.pod_request_memory
          capacity_details.node_capacity_memory_unit metrics.pod_request_memory_unit }

/-- Source `__namespace_wise_utilization_dict` (lines 67–74): the freshly built dict,
still carrying the transient `node_id` key. -/
def namespace_wise_utilization_dict (result : UsageRecord)
    (usage_percentages : PercentageBundle) : NamespaceUtilizationEntry :=
  { nspace := result.nspace
    utilization := bundleMax usage_percentages
    utilization_unit := "percent"
    node_id := some result.node_id
    details := usage_percentages }

/-! ## Node-wise aggregation -/

/-- The dict comprehension of line 98: for each of the four percentage keys,
`round(old.get(key, 0) + new.get(key, 0), 4)`.  Every bundle the program
builds carries all four keys, so `.get(key, 0)` is plain field access here. -/
def mergeDetails (old new : PercentageBundle) : PercentageBundle :=
  { cpu_usage_percentage :=
      round4 (old.cpu_usage_percentage + new.cpu_usage_percentage)
    memory_usage_percentage :=
      round4 (old.memory_usage_percentage + new.memory_usage_percentage)
    cpu_request_percentage :=
      round4 (old.cpu_request_percentage + new.cpu_request_percentage)
    memory_request_percentage :=
      round4 (old.memory_request_percentage + new.memory_request_percentage) }

/-- The `new_namespace_wise_utilization_dict` of lines 99–104, built when an
entry for the same namespace already exists: namespace from the incoming dict,
`utilization` the max over the merged details, no `node_id` key. -/
def mergedNamespaceDict (namespace_utilization
    namespace_wise_utilization_dict : NamespaceUtilizationEntry) :
    NamespaceUtilizationEntry :=
  let percentage_details :=
    mergeDetails namespace_utilization.details
      namespace_wise_utilization_dict.details
  { nspace := namespace_wise_utilization_dict.nspace
    utilization := bundleMax percentage_details
    utilization_unit := "percent"
    node_id := none
    details := percentage_details }

/-- In-place mutation of the first list element satisfying `p` (Python finds
the dict with `next(...)` and mutates that object inside the list). -/
def updateFirst (p : α → Bool) (f : α → α) : List α → List α
  | [] => []
  | x :: xs => if p x then f x :: xs else x :: updateFirst p f xs

/-- The update of `existing_node_record['utilization_detail']` (lines 92–105).
`detail.remove(namespace_utilization)` removes the first element equal to the
found dict; the found dict is the first one with the matching namespace and
every earlier element has a different namespace (hence is unequal), so the
removal is `List.eraseP` on the namespace test. -/
def updateUtilizationDetail (incoming : NamespaceUtilizationEntry)
    (detail : List NamespaceUtilizationEntry) :
    List NamespaceUtilizationEntry :=
  match detail.find? (fun item => item.nspace = incoming.nspace) with
  | none => detail ++ [incoming]
  | some namespace_utilization =>
      detail.eraseP (fun item => item.nspace = incoming.nspace) ++
        [mergedNamespaceDict namespace_utilization incoming]

/-- Source `__build_node_id_wise_result` (lines 79–105) as a function of the
`node_id_wise_reponse` state.  The transient `node_id` key is popped first;
a missing node appends a fresh node record, an existing one has its
`utilization_detail` updated in place. -/
def build_node_id_wise_result (node_id node_name : String)
    (namespace_wise_utilization_dict : NamespaceUtilizationEntry)
    (state : List NodeRecord) : List NodeRecord :=
  let incoming := { namespace_wise_utilization_dict with node_id := none }
  match state.find? (fun node_detail => node_detail.node_id = node_id) with
  | none =>
      state ++ [{ node_id := node_id, node_name := node_name,
                  utilization_detail := [incoming] }]
  | some _ =>
      updateFirst (fun node_detail => node_detail.node_id = node_id)
        (fun node_detail =>
          { node_detail with utilization_detail :=
              updateUtilizationDetail incoming node_detail.utilization_detail })
        state

/-- One iteration of the `for result in response['response']` loop of
`request_openshift_report_api` (lines 54–58): compute the percentages (a
failed capacity lookup raises, modelled `none`), build the namespace dict,
fold it into the node-wise state. -/
def ingest (caps : List CapacityRecord) (state : List NodeRecord)
    (result : UsageRecord) : Option (List NodeRecord) :=
  match metric_usage_percentage caps result with
  | none => none
  | some usage_percentages =>
      some (build_node_id_wise_result result.node_id result.node_name
        (namespace_wise_utilization_dict result usage_percentages) state)

/-- Processing a whole stream of usage records, starting from a given
`node_id_wise_reponse` state; the first raised error aborts the run. -/
def ingestAll (caps : List CapacityRecord) (state : List NodeRecord) :
    List UsageRecord → Option (List NodeRecord)
  | [] => some state
  | r :: rs =>
      match ingest caps state r with
      | none => none
      | some state' => ingestAll caps state' rs

/-! ## Invariants claimed of the aggregator state -/

/-- The spec's two structural invariants: node records are unique by
`node_id`, and inside each node record there is at most one
namespace-utilization entry per namespace. -/
def NodesInvariant (state : List NodeRecord) : Prop :=
  (state.map (fun nd => nd.node_id)).Nodup ∧
  ∀ nd ∈ state, (nd.utilization_detail.map (fun e => e.nspace)).Nodup

/-- Every stored namespace-utilization entry has had its transient `node_id`
key popped. -/
def EntriesClean (state : List NodeRecord) : Prop :=
  ∀ nd ∈ state, ∀ e ∈ nd.utilization_detail, e.node_id = none

/-! ## Concrete records for the spec's worked scenario and witnesses -/

/-- The capacity record of the spec's worked scenario (§8). -/
def exampleCapacity : CapacityRecord :=
  { node_id := "n1", nspace := "ns1", pod_name := "p1",
    node_capacity_cpu := 4, node_capacity_cpu_unit := "cores",
    node_capacity_memory := 8, node_capacity_memory_unit := "GB" }

/-- The usage record of the spec's worked scenario (§8); the spec's
"milli-units"/"binary-mega-units" are the source's `"milicores"`/`"MiB"`. -/
def exampleUsage : UsageRecord :=
  { node_id := "n1", node_name := "node-a", nspace := "ns1", pod_name := "p1",
    pod_usage_cpu := 2000, pod_usage_cpu_unit := "milicores",
    pod_request_cpu := 1000, pod_request_cpu_unit := "milicores",
    pod_usage_memory := 4096, pod_usage_memory_unit := "MiB",
    pod_request_memory := 2048, pod_request_memory_unit := "MiB" }

/-- The percentage bundle the worked scenario expects. -/
def examplePercentages : PercentageBundle :=
  { cpu_usage_percentage := 50, memory_usage_percentage := 50,
    cpu_request_percentage := 25, memory_request_percentage := 25 }

/-- A usage record with a negative CPU usage reading (nothing in the source
rejects it). -/
def negativeUsage : UsageRecord :=
  { node_id := "n1", node_name := "node-a", nspace := "ns1", pod_name := "p1",
    pod_usage_cpu := -4, pod_usage_cpu_unit := "cores",
    pod_request_cpu := 0, pod_request_cpu_unit := "cores",
    pod_usage_memory := 0, pod_usage_memory_unit := "GB",
    pod_request_memory := 0, pod_request_memory_unit := "GB" }

/-- A stored entry for namespace `"ns1"` with `cpu_usage_percentage` 50. -/
def entryA : NamespaceUtilizationEntry :=
  { nspace := "ns1", utilization := 50, utilization_unit := "percent",
    node_id := none,
    details := { cpu_usage_percentage := 50, memory_usage_percentage := 10,
                 cpu_request_percentage := 5, memory_request_percentage := 5 } }

/-- A freshly built entry for namespace `"ns1"` with `cpu_usage_percentage`
30 (transient `node_id` still present). -/
def entryB : NamespaceUtilizationEntry :=
  { nspace := "ns1", utilization := 30, utilization_unit := "percent",
    node_id := some "n1",
    details := { cpu_usage_percentage := 30, memory_usage_percentage := 20,
                 cpu_request_percentage := 5, memory_request_percentage := 5 } }

/-- A one-node state holding `entryA`, for exercising the merge branch. -/
def exampleState : List NodeRecord :=
  [{ node_id := "n1", node_name := "node-a", utilization_detail := [entryA] }]

/-- The node-wise state produced by ingesting the worked scenario's usage
record into the empty state. -/
def exampleResult : List NodeRecord :=
  [{ node_id := "n1", node_name := "node-a",
     utilization_detail :=
       [{ nspace := "ns1", utilization := 50, utilization_unit := "percent",
          node_id := none, details := examplePercentages }] }]

/-! ## Properties of the rounding function -/

theorem rat_floor_eq (q : ℚ) : Rat.floor q = ⌊q⌋ := by
  rw [Rat.floor_def' q, Rat.floor_def]

/-- Restatement of `roundHalfEven` with `Int.floor`, for reasoning. -/
theorem roundHalfEven_eq (q : ℚ) :
    roundHalfEven q =
      if q - ⌊q⌋ < 1/2 then ⌊q⌋
      else if 1/2 < q - ⌊q⌋ then ⌊q⌋ + 1
      else if ⌊q⌋ % 2 = 0 then ⌊q⌋ else ⌊q⌋ + 1 := by
  unfold roundHalfEven
  rw [rat_floor_eq]

theorem floor_le_roundHalfEven (q : ℚ) : ⌊q⌋ ≤ roundHalfEven q := by
  rw [roundHalfEven_eq]
  split_ifs <;> omega

theorem roundHalfEven_le_floor_add_one (q : ℚ) :
    roundHalfEven q ≤ ⌊q⌋ + 1 := by
  rw [roundHalfEven_eq]
  split_ifs <;> omega

theorem roundHalfEven_mono {a b : ℚ} (h : a ≤ b) :
    roundHalfEven a ≤ roundHalfEven b := by
  have hfl : ⌊a⌋ ≤ ⌊b⌋ := Int.floor_le_floor h
  rcases eq_or_lt_of_le hfl with heq | hlt
  · have h1 : a - ⌊a⌋ ≤ b - ⌊a⌋ := by linarith
    rw [roundHalfEven_eq, roundHalfEven_eq, ← heq]
    split_ifs <;> first | omega | (exfalso; linarith)
  · calc roundHalfEven a ≤ ⌊a⌋ + 1 := roundHalfEven_le_floor_add_one a
      _ ≤ ⌊b⌋ := by omega
      _ ≤ roundHalfEven b := floor_le_roundHalfEven b

theorem roundHalfEven_intCast (n : ℤ) : roundHalfEven (n : ℚ) = n := by
  rw [roundHalfEven_eq, Int.floor_intCast]
  norm_num

theorem round4_mono {a b : ℚ} (h : a ≤ b) : round4 a ≤ round4 b := by
  unfold round4
  have h1 : a * 10000 ≤ b * 10000 := by linarith
  have h2 := roundHalfEven_mono h1
  have h3 : (roundHalfEven (a * 10000) : ℚ) ≤ (roundHalfEven (b * 10000) : ℚ) := by
    exact_mod_cast h2
  linarith

theorem round4_idem (q : ℚ) : round4 (round4 q) = round4 q := by
  unfold round4
  rw [div_mul_cancel₀ _ (by norm_num : (10000 : ℚ) ≠ 0), roundHalfEven_intCast]

theorem round4_nonneg {q : ℚ} (h : 0 ≤ q) : 0 ≤ round4 q := by
  unfold round4
  have h1 : (0 : ℤ) ≤ ⌊q * 10000⌋ := Int.floor_nonneg.mpr (by positivity)
  have h2 : (0 : ℤ) ≤ roundHalfEven (q * 10000) :=
    le_trans h1 (floor_le_roundHalfEven _)
  have h3 : (0 : ℚ) ≤ (roundHalfEven (q * 10000) : ℚ) := by exact_mod_cast h2
  positivity

theorem round4_zero : round4 0 = 0 := by
  have h : roundHalfEven ((0 : ℤ) : ℚ) = 0 := roundHalfEven_intCast 0
  norm_num at h
  unfold round4
  norm_num [h]

/-! ## Properties of `updateFirst` -/

theorem updateFirst_find? (p : α → Bool) (f : α → α) (l : List α) (x : α)
    (hl : l.find? p = some x) (hf : p (f x) = true) :
    (updateFirst p f l).find? p = some (f x) := by
  induction l with
  | nil => simp at hl
  | cons a t ih =>
      by_cases hpa : p a = true
      · rw [List.find?_cons_of_pos t hpa] at hl
        cases hl
        simp only [updateFirst, if_pos hpa]
        exact List.find?_cons_of_pos t hf
      · rw [List.find?_cons_of_neg t hpa] at hl
        simp only [updateFirst, if_neg hpa]
        rw [List.find?_cons_of_neg _ hpa]
        exact ih hl

theorem updateFirst_map_of_preserve {g : α → β} (p : α → Bool) (f : α → α)
    (l : List α) (h : ∀ x, g (f x) = g x) :
    (updateFirst p f l).map g = l.map g := by
  induction l with
  | nil => rfl
  | cons a t ih =>
      simp only [updateFirst]
      by_cases hpa : p a = true
      · simp [if_pos hpa, h a]
      · simp [if_neg hpa, ih]

theorem mem_updateFirst (p : α → Bool) (f : α → α) (l : List α) (x : α)
    (hx : x ∈ updateFirst p f l) : x ∈ l ∨ ∃ y ∈ l, x = f y := by
  induction l with
  | nil => simp [updateFirst] at hx
  | cons a t ih =>
      simp only [updateFirst] at hx
      by_cases hpa : p a = true
      · rw [if_pos hpa] at hx
        rcases List.mem_cons.mp hx with h | h
        · exact Or.inr ⟨a, List.mem_cons_self a t, h⟩
        · exact Or.inl (List.mem_cons_of_mem a h)
      · rw [if_neg hpa] at hx
        rcases List.mem_cons.mp hx with h | h
        · exact Or.inl (h ▸ List.mem_cons_self a t)
        · rcases ih h with h' | ⟨y, hy, hxy⟩
          · exact Or.inl (List.mem_cons_of_mem a h')
          · exact Or.inr ⟨y, List.mem_cons_of_mem a hy, hxy⟩

/-! ## Unfolding equations for the aggregation step -/

theorem nodup_append_singleton {l : List α} {a : α} :
    (l ++ [a]).Nodup ↔ l.Nodup ∧ a ∉ l := by
  simp [List.nodup_append]

theorem updateUtilizationDetail_of_none (incoming : NamespaceUtilizationEntry)
    (detail : List NamespaceUtilizationEntry)
    (h : detail.find? (fun item => item.nspace = incoming.nspace) = none) :
    updateUtilizationDetail incoming detail = detail ++ [incoming] := by
  unfold updateUtilizationDetail
  rw [h]

theorem updateUtilizationDetail_of_some (incoming : NamespaceUtilizationEntry)
    (detail : List NamespaceUtilizationEntry)
    (namespace_utilization : NamespaceUtilizationEntry)
    (h : detail.find? (fun item => item.nspace = incoming.nspace) =
      some namespace_utilization) :
    updateUtilizationDetail incoming detail =
      detail.eraseP (fun item => item.nspace = incoming.nspace) ++
        [mergedNamespaceDict namespace_utilization incoming] := by
  unfold updateUtilizationDetail
  rw [h]

theorem build_of_find?_none (node_id node_name : String)
    (e : NamespaceUtilizationEntry) (state : List NodeRecord)
    (h : state.find? (fun node_detail => node_detail.node_id = node_id) = none) :
    build_node_id_wise_result node_id node_name e state =
      state ++ [{ node_id := node_id, node_name := node_name,
                  utilization_detail := [{ e with node_id := none }] }] := by
  unfold build_node_id_wise_result
  rw [h]

theorem build_of_find?_some (node_id node_name : String)
    (e : NamespaceUtilizationEntry) (state : List NodeRecord) (found : NodeRecord)
    (h : state.find? (fun node_detail => node_detail.node_id = node_id) =
      some found) :
    build_node_id_wise_result node_id node_name e state =
      updateFirst (fun node_detail => node_detail.node_id = node_id)
        (fun node_detail =>
          { node_detail with utilization_detail :=
              (updateUtilizationDetail ({ e with node_id := none })
                node_detail.utilization_detail) })
        state := by
  unfold build_node_id_wise_result
  rw [h]

/-! ## Evaluation helpers for the unit converter and concrete percentages -/

theorem convert_milicores (v : ℚ) : convert v "milicores" = v / 1000 := by
  have h : ("milicores" : String) ≠ "MiB" := by decide
  simp [convert, convert_milicores_to_cores, h]

theorem convert_mib (v : ℚ) : convert v "MiB" = v / 1024 := by
  have h : ("MiB" : String) ≠ "milicores" := by decide
  simp [convert, convert_mb_to_gb, h]

theorem convert_other (v : ℚ) (u : String)
    (h1 : u ≠ "milicores") (h2 : u ≠ "MiB") : convert v u = v := by
  simp [convert, h1, h2]

theorem calc_cpu_usage_example :
    calculate_percentage 4 2000 "cores" "milicores" = 50 := by
  unfold calculate_percentage
  rw [convert_milicores]
  norm_num [round4, roundHalfEven_eq]

theorem calc_mem_usage_example :
    calculate_percentage 8 4096 "GB" "MiB" = 50 := by
  unfold calculate_percentage
  rw [convert_mib]
  norm_num [round4, roundHalfEven_eq]

theorem calc_cpu_request_example :
    calculate_percentage 4 1000 "cores" "milicores" = 25 := by
  unfold calculate_percentage
  rw [convert_milicores]
  norm_num [round4, roundHalfEven_eq]

theorem calc_mem_request_example :
    calculate_percentage 8 2048 "GB" "MiB" = 25 := by
  unfold calculate_percentage
  rw [convert_mib]
  norm_num [round4, roundHalfEven_eq]

theorem lookup_example :
    lookupCapacity [exampleCapacity] exampleUsage.node_id exampleUsage.nspace
      exampleUsage.pod_name = some exampleCapacity := rfl

theorem metric_example :
    metric_usage_percentage [exampleCapacity] exampleUsage =
      some examplePercentages := by
  unfold metric_usage_percentage
  rw [lookup_example]
  unfold examplePercentages
  simp only [exampleCapacity, exampleUsage, Option.some.injEq,
    PercentageBundle.mk.injEq]
  exact ⟨calc_cpu_usage_example, calc_mem_usage_example,
    calc_cpu_request_example, calc_mem_request_example⟩

/-! ## Claim theorems -/

/-- C2: for every usage value and every usage-unit string (and any capacity
unit), `__calculate_percentage` with capacity `0` returns exactly `0.0`: the
division-by-zero failure is absorbed locally, the function is total, and no
error reaches the caller. -/
theorem zero_capacity_yields_zero (actual_usage : ℚ)
    (capacity_unit actual_usage_unit : String) :
    calculate_percentage 0 actual_usage capacity_unit actual_usage_unit = 0 := by
  simp [calculate_percentage]

/-- C3: the unit conversion applied to a usage value divides by 1000 for the
milli-unit string (`"milicores"` in the source), divides by 1024 for the
binary-mega-unit string (`"MiB"` in the source), and leaves every other unit
string unchanged without error; in particular `convert 1000` of the
milli-unit is `1` and `convert 1024` of the binary-mega-unit is `1`. -/
theorem convert_unit_rules :
    (∀ v : ℚ, convert v "milicores" = v / 1000) ∧
    (∀ v : ℚ, convert v "MiB" = v / 1024) ∧
    (∀ (v : ℚ) (u : String), u ≠ "milicores" → u ≠ "MiB" → convert v u = v) ∧
    convert 1000 "milicores" = 1 ∧
    convert 1024 "MiB" = 1 := by
  refine ⟨convert_milicores, convert_mib, convert_other, ?_, ?_⟩
  · rw [convert_milicores]; norm_num
  · rw [convert_mib]; norm_num

/-- Witness for C3: the passthrough branch of `convert_unit_rules` at the
concrete unrecognized unit `"cores"`. -/
theorem convert_unit_rules_witness : convert 7 "cores" = 7 :=
  convert_unit_rules.2.2.1 7 "cores" (by decide) (by decide)

/-- C4: on the spec's worked scenario the computed percentage bundle is
`{cpu_usage: 50, memory_usage: 50, cpu_request: 25, memory_request: 25}` and
the namespace-utilization entry built from it has `utilization = 50`. -/
theorem worked_scenario :
    metric_usage_percentage [exampleCapacity] exampleUsage =
      some { cpu_usage_percentage := 50, memory_usage_percentage := 50,
             cpu_request_percentage := 25, memory_request_percentage := 25 } ∧
    (namespace_wise_utilization_dict exampleUsage examplePercentages).utilization
      = 50 := by
  constructor
  · exact metric_example
  · simp only [namespace_wise_utilization_dict, bundleMax, examplePercentages]
    norm_num

/-- C5: a usage record whose `(node_id, namespace, pod_name)` key has no
match in the capacity index makes its ingestion a hard failure: the
percentage computation raises (modelled `none`) and the error propagates,
instead of skipping the record or substituting a default bundle. -/
theorem missing_capacity_is_hard_failure (caps : List CapacityRecord)
    (state : List NodeRecord) (result : UsageRecord)
    (h : lookupCapacity caps result.node_id result.nspace result.pod_name
      = none) :
    ingest caps state result = none := by
  unfold ingest metric_usage_percentage
  rw [h]

/-- Witness for C5: against an empty capacity index, ingesting the example
usage record fails. -/
theorem missing_capacity_is_hard_failure_witness :
    lookupCapacity [] exampleUsage.node_id exampleUsage.nspace
      exampleUsage.pod_name = none ∧
    ingest [] [] exampleUsage = none :=
  ⟨rfl, missing_capacity_is_hard_failure [] [] exampleUsage rfl⟩

/-- C7: merging two namespace-utilization entries with the same namespace is
commutative: the merged dicts built from (A, B) and from (B, A) agree, in
particular in their `details` bundle and their `utilization`. -/
theorem merged_dict_commutative (a b : NamespaceUtilizationEntry)
    (h : a.nspace = b.nspace) :
    mergedNamespaceDict a b = mergedNamespaceDict b a := by
  have hd : mergeDetails a.details b.details = mergeDetails b.details a.details := by
    unfold mergeDetails
    simp only [PercentageBundle.mk.injEq]
    refine ⟨?_, ?_, ?_, ?_⟩ <;> rw [add_comm]
  unfold mergedNamespaceDict
  simp [NamespaceUtilizationEntry.mk.injEq, hd, h]

/-- Witness for C7: merging the two concrete `"ns1"` entries in either order
gives the same merged dict. -/
theorem merged_dict_commutative_witness :
    entryA.nspace = entryB.nspace ∧
    mergedNamespaceDict entryA entryB = mergedNamespaceDict entryB entryA :=
  ⟨rfl, merged_dict_commutative entryA entryB rfl⟩

/-- C8: for a fixed capacity strictly greater than 0 and a fixed usage-unit
string, `__calculate_percentage` is monotone non-decreasing in the usage
argument, through the unit conversion and the rounding to 4 decimals. -/
theorem percentage_monotone (capacity u1 u2 : ℚ)
    (capacity_unit actual_usage_unit : String)
    (hc : 0 < capacity) (h : u1 ≤ u2) :
    calculate_percentage capacity u1 capacity_unit actual_usage_unit ≤
      calculate_percentage capacity u2 capacity_unit actual_usage_unit := by
  have hconv : convert u1 actual_usage_unit ≤ convert u2 actual_usage_unit := by
    unfold convert convert_milicores_to_cores convert_mb_to_gb
    dsimp only
    split_ifs <;> gcongr
  unfold calculate_percentage
  rw [if_neg (ne_of_gt hc), if_neg (ne_of_gt hc)]
  apply round4_mono
  have hdiv : convert u1 actual_usage_unit / capacity ≤
      convert u2 actual_usage_unit / capacity :=
    div_le_div_of_nonneg_right hconv (le_of_lt hc)
  exact mul_le_mul_of_nonneg_right hdiv (by norm_num)

/-- Witness for C8: with capacity 4 and usages 1 ≤ 2 in an unconverted unit,
the percentages are ordered. -/
theorem percentage_monotone_witness :
    (0 : ℚ) < 4 ∧ (1 : ℚ) ≤ 2 ∧
    calculate_percentage 4 1 "cores" "cores" ≤
      calculate_percentage 4 2 "cores" "cores" :=
  ⟨by norm_num, by norm_num,
    percentage_monotone 4 1 2 "cores" "cores" (by norm_num) (by norm_num)⟩

/-- C1: ingesting a usage record for a `(node_id, namespace)` pair that
already has an entry in that node's `utilization_detail` removes the old
entry and appends a merged entry whose details are, key by key, the sum of
the old and the new value rounded to 4 decimal places, and whose
`utilization` is the maximum of those four summed values. -/
theorem merge_replaces_and_sums
    (state : List NodeRecord) (node_id node_name : String)
    (e : NamespaceUtilizationEntry) (nd : NodeRecord)
    (old : NamespaceUtilizationEntry)
    (hnode : state.find? (fun node_detail => node_detail.node_id = node_id)
      = some nd)
    (hns : nd.utilization_detail.find? (fun item => item.nspace = e.nspace)
      = some old) :
    ∃ nd', (build_node_id_wise_result node_id node_name e state).find?
        (fun node_detail => node_detail.node_id = node_id) = some nd' ∧
      nd'.node_id = nd.node_id ∧ nd'.node_name = nd.node_name ∧
      nd'.utilization_detail =
        nd.utilization_detail.eraseP (fun item => item.nspace = e.nspace) ++
          [{ nspace := e.nspace,
             utilization := (bundleMax
               { cpu_usage_percentage := (round4 (old.details.cpu_usage_percentage
                   + e.details.cpu_usage_percentage)),
                 memory_usage_percentage := (round4 (old.details.memory_usage_percentage
                   + e.details.memory_usage_percentage)),
                 cpu_request_percentage := (round4 (old.details.cpu_request_percentage
                   + e.details.cpu_request_percentage)),
                 memory_request_percentage := (round4 (old.details.memory_request_percentage
                   + e.details.memory_request_percentage)) }),
             utilization_unit := "percent",
             node_id := none,
             details :=
               { cpu_usage_percentage := (round4 (old.details.cpu_usage_percentage
                   + e.details.cpu_usage_percentage)),
                 memory_usage_percentage := (round4 (old.details.memory_usage_percentage
                   + e.details.memory_usage_percentage)),
                 cpu_request_percentage := (round4 (old.details.cpu_request_percentage
                   + e.details.cpu_request_percentage)),
                 memory_request_percentage := (round4 (old.details.memory_request_percentage
                   + e.details.memory_request_percentage)) } }] := by
  rw [build_of_find?_some node_id node_name e state nd hnode]
  refine ⟨{ nd with utilization_detail :=
      (updateUtilizationDetail ({ e with node_id := none })
        nd.utilization_detail) }, ?_, rfl, rfl, ?_⟩
  · apply updateFirst_find? _ _ state nd hnode
    simpa using List.find?_some hnode
  · show updateUtilizationDetail ({ e with node_id := none })
      nd.utilization_detail = _
    rw [updateUtilizationDetail_of_some ({ e with node_id := none })
      nd.utilization_detail old hns]
    rfl

/-- Witness for C1: merging the concrete `"ns1"` entries with
`cpu_usage_percentage` 50 and 30 replaces the stored entry and yields a
merged `cpu_usage_percentage` of `round4 (50 + 30) = 80`. -/
theorem merge_replaces_and_sums_witness :
    (∃ nd', (build_node_id_wise_result "n1" "node-a" entryB exampleState).find?
        (fun node_detail => node_detail.node_id = "n1") = some nd' ∧
      nd'.node_id = "n1" ∧ nd'.node_name = "node-a" ∧
      nd'.utilization_detail =
        [entryA].eraseP (fun item => item.nspace = entryB.nspace) ++
          [{ nspace := entryB.nspace,
             utilization := (bundleMax
               { cpu_usage_percentage := (round4 (50 + 30)),
                 memory_usage_percentage := (round4 (10 + 20)),
                 cpu_request_percentage := (round4 (5 + 5)),
                 memory_request_percentage := (round4 (5 + 5)) }),
             utilization_unit := "percent",
             node_id := none,
             details :=
               { cpu_usage_percentage := (round4 (50 + 30)),
                 memory_usage_percentage := (round4 (10 + 20)),
                 cpu_request_percentage := (round4 (5 + 5)),
                 memory_request_percentage := (round4 (5 + 5)) } }]) ∧
    round4 ((50 : ℚ) + 30) = 80 :=
  ⟨merge_replaces_and_sums exampleState "n1" "node-a" entryB
      { node_id := "n1", node_name := "node-a", utilization_detail := [entryA] }
      entryA rfl rfl,
    by norm_num [round4, roundHalfEven_eq]⟩

/-! ## Preservation of the structural invariants -/

theorem nodup_updateUtilizationDetail (incoming : NamespaceUtilizationEntry)
    (detail : List NamespaceUtilizationEntry)
    (hd : (detail.map (fun x => x.nspace)).Nodup) :
    ((updateUtilizationDetail incoming detail).map (fun x => x.nspace)).Nodup := by
  cases hfd : detail.find? (fun item => item.nspace = incoming.nspace) with
  | none =>
      rw [updateUtilizationDetail_of_none incoming detail hfd]
      rw [List.map_append]
      simp only [List.map_cons, List.map_nil]
      rw [nodup_append_singleton]
      refine ⟨hd, fun hmem => ?_⟩
      rcases List.mem_map.mp hmem with ⟨x, hx, hxns⟩
      rw [List.find?_eq_none] at hfd
      exact hfd x hx (decide_eq_true hxns)
  | some old =>
      rw [updateUtilizationDetail_of_some incoming detail old hfd]
      obtain ⟨a, l₁, l₂, hl₁, hpa, hdeq, herase⟩ :=
        List.exists_of_eraseP (List.mem_of_find?_eq_some hfd)
          (List.find?_some hfd)
      rw [herase]
      have hans : a.nspace = incoming.nspace := of_decide_eq_true hpa
      rw [hdeq] at hd
      simp only [List.map_append, List.map_cons] at hd
      rw [List.nodup_append] at hd
      obtain ⟨h1, h2, h3⟩ := hd
      rw [List.nodup_cons] at h2
      obtain ⟨hanotl2, h2'⟩ := h2
      rw [List.map_append]
      simp only [List.map_cons, List.map_nil]
      rw [nodup_append_singleton]
      constructor
      · rw [List.map_append, List.nodup_append]
        exact ⟨h1, h2', fun x hx1 hx2 => h3 hx1 (List.mem_cons_of_mem _ hx2)⟩
      · intro hmem'
        rw [List.map_append] at hmem'
        rcases List.mem_append.mp hmem' with hm | hm
        · exact h3 hm (by rw [hans]; exact List.mem_cons_self _ _)
        · rw [hans] at hanotl2
          exact hanotl2 hm

theorem updateFirst_build_map_node_id (node_id : String)
    (e : NamespaceUtilizationEntry) (state : List NodeRecord) :
    (updateFirst (fun node_detail => node_detail.node_id = node_id)
      (fun node_detail =>
        { node_detail with utilization_detail :=
            (updateUtilizationDetail e node_detail.utilization_detail) })
      state).map (fun nd => nd.node_id) = state.map (fun nd => nd.node_id) := by
  induction state with
  | nil => rfl
  | cons a t ih =>
      by_cases hpa : a.node_id = node_id
      · simp [updateFirst, hpa]
      · simp [updateFirst, hpa, ih]

theorem nodesInvariant_build (node_id node_name : String)
    (e : NamespaceUtilizationEntry) (state : List NodeRecord)
    (h : NodesInvariant state) :
    NodesInvariant (build_node_id_wise_result node_id node_name e state) := by
  obtain ⟨hIds, hNs⟩ := h
  cases hfind : state.find? (fun node_detail => node_detail.node_id = node_id) with
  | none =>
      rw [build_of_find?_none node_id node_name e state hfind]
      constructor
      · rw [List.map_append]
        simp only [List.map_cons, List.map_nil]
        rw [nodup_append_singleton]
        refine ⟨hIds, fun hmem => ?_⟩
        rcases List.mem_map.mp hmem with ⟨x, hx, hxid⟩
        rw [List.find?_eq_none] at hfind
        exact hfind x hx (decide_eq_true hxid)
      · intro nd hnd
        rcases List.mem_append.mp hnd with hmem | hmem
        · exact hNs nd hmem
        · have hnd' : nd = { node_id := node_id, node_name := node_name,
                             utilization_detail := [{ e with node_id := none }] } := by
            simpa using hmem
          subst hnd'
          simp
  | some found =>
      rw [build_of_find?_some node_id node_name e state found hfind]
      constructor
      · rw [updateFirst_build_map_node_id node_id ({ e with node_id := none })
          state]
        exact hIds
      · intro nd hnd
        rcases mem_updateFirst _ _ _ _ hnd with hmem | ⟨y, hy, hyf⟩
        · exact hNs nd hmem
        · subst hyf
          exact nodup_updateUtilizationDetail _ _ (hNs y hy)

theorem ingest_preserves_invariant (caps : List CapacityRecord)
    (state : List NodeRecord) (r : UsageRecord) (state' : List NodeRecord)
    (h : ingest caps state r = some state') (hinv : NodesInvariant state) :
    NodesInvariant state' := by
  unfold ingest at h
  cases hm : metric_usage_percentage caps r with
  | none => simp [hm] at h
  | some pcts =>
      simp only [hm, Option.some.injEq] at h
      rw [← h]
      exact nodesInvariant_build _ _ _ _ hinv

theorem ingestAll_preserves_invariant (caps : List CapacityRecord)
    (rs : List UsageRecord) : ∀ (s0 s : List NodeRecord),
    NodesInvariant s0 → ingestAll caps s0 rs = some s → NodesInvariant s := by
  induction rs with
  | nil =>
      intro s0 s h0 h
      simp only [ingestAll, Option.some.injEq] at h
      rw [← h]
      exact h0
  | cons r rs ih =>
      intro s0 s h0 h
      unfold ingestAll at h
      cases hi : ingest caps s0 r with
      | none => simp [hi] at h
      | some s1 =>
          simp only [hi] at h
          exact ih s1 s (ingest_preserves_invariant caps s0 r s1 hi h0) h

theorem ingest_example :
    ingest [exampleCapacity] [] exampleUsage = some exampleResult := by
  unfold ingest
  simp only [metric_example]
  rw [build_of_find?_none exampleUsage.node_id exampleUsage.node_name
    (namespace_wise_utilization_dict exampleUsage examplePercentages) [] rfl]
  unfold exampleResult namespace_wise_utilization_dict
  simp only [exampleUsage, examplePercentages, bundleMax, List.nil_append]
  norm_num

theorem ingestAll_example :
    ingestAll [exampleCapacity] [] [exampleUsage] = some exampleResult := by
  unfold ingestAll
  simp only [ingest_example]
  unfold ingestAll
  rfl

/-- C6: for every stream of usage records processed from the initial empty
state, the resulting node collection has node records unique by `node_id`
and, within each node record, at most one utilization entry per namespace;
since every prefix of the stream is itself a stream, the invariants hold
after each ingest and in the final report. -/
theorem node_invariants_hold (caps : List CapacityRecord)
    (rs : List UsageRecord) (s : List NodeRecord)
    (h : ingestAll caps [] rs = some s) : NodesInvariant s := by
  refine ingestAll_preserves_invariant caps rs [] s ⟨List.nodup_nil, ?_⟩ h
  intro nd hnd
  simp at hnd

/-- Witness for C6: the state produced by the worked scenario satisfies both
invariants. -/
theorem node_invariants_hold_witness : NodesInvariant exampleResult :=
  node_invariants_hold [exampleCapacity] [exampleUsage] exampleResult
    ingestAll_example

/-! ## Preservation of the popped-`node_id` property -/

theorem clean_updateUtilizationDetail (incoming : NamespaceUtilizationEntry)
    (detail : List NamespaceUtilizationEntry)
    (hin : incoming.node_id = none)
    (hd : ∀ x ∈ detail, x.node_id = none) :
    ∀ x ∈ updateUtilizationDetail incoming detail, x.node_id = none := by
  intro x hx
  cases hfd : detail.find? (fun item => item.nspace = incoming.nspace) with
  | none =>
      rw [updateUtilizationDetail_of_none incoming detail hfd] at hx
      rcases List.mem_append.mp hx with hm | hm
      · exact hd x hm
      · have hxe : x = incoming := by simpa using hm
        rw [hxe]
        exact hin
  | some old =>
      rw [updateUtilizationDetail_of_some incoming detail old hfd] at hx
      rcases List.mem_append.mp hx with hm | hm
      · exact hd x (List.Sublist.mem hm (List.eraseP_sublist detail))
      · have hxm : x = mergedNamespaceDict old incoming := by simpa using hm
        rw [hxm]
        rfl

theorem entriesClean_build (node_id node_name : String)
    (e : NamespaceUtilizationEntry) (state : List NodeRecord)
    (h : EntriesClean state) :
    EntriesClean (build_node_id_wise_result node_id node_name e state) := by
  cases hfind : state.find? (fun node_detail => node_detail.node_id = node_id) with
  | none =>
      rw [build_of_find?_none node_id node_name e state hfind]
      intro nd hnd
      rcases List.mem_append.mp hnd with hm | hm
      · exact h nd hm
      · have hnd' : nd = { node_id := node_id, node_name := node_name,
                           utilization_detail := [{ e with node_id := none }] } := by
          simpa using hm
        subst hnd'
        intro x hx
        have hxe : x = { e with node_id := none } := by simpa using hx
        rw [hxe]
  | some found =>
      rw [build_of_find?_some node_id node_name e state found hfind]
      intro nd hnd
      rcases mem_updateFirst _ _ _ _ hnd with hm | ⟨y, hy, hyf⟩
      · exact h nd hm
      · subst hyf
        intro x hx
        exact clean_updateUtilizationDetail _ _ rfl (h y hy) x hx

theorem ingest_preserves_clean (caps : List CapacityRecord)
    (state : List NodeRecord) (r : UsageRecord) (state' : List NodeRecord)
    (h : ingest caps state r = some state') (hc : EntriesClean state) :
    EntriesClean state' := by
  unfold ingest at h
  cases hm : metric_usage_percentage caps r with
  | none => simp [hm] at h
  | some pcts =>
      simp only [hm, Option.some.injEq] at h
      rw [← h]
      exact entriesClean_build _ _ _ _ hc

theorem ingestAll_preserves_clean (caps : List CapacityRecord)
    (rs : List UsageRecord) : ∀ (s0 s : List NodeRecord),
    EntriesClean s0 → ingestAll caps s0 rs = some s → EntriesClean s := by
  induction rs with
  | nil =>
      intro s0 s h0 h
      simp only [ingestAll, Option.some.injEq] at h
      rw [← h]
      exact h0
  | cons r rs ih =>
      intro s0 s h0 h
      unfold ingestAll at h
      cases hi : ingest caps s0 r with
      | none => simp [hi] at h
      | some s1 =>
          simp only [hi] at h
          exact ih s1 s (ingest_preserves_clean caps s0 r s1 hi h0) h

/-- C10: every namespace-utilization entry stored in any node record of a
state reachable from the empty state carries `node_id = none`: the transient
`node_id` key added at construction is popped before insertion, and merged
entries are rebuilt without it, so stored entries carry exactly the keys
`namespace`, `utilization`, `utilization_unit` and `details`. -/
theorem entries_have_node_id_popped (caps : List CapacityRecord)
    (rs : List UsageRecord) (s : List NodeRecord)
    (h : ingestAll caps [] rs = some s) : EntriesClean s := by
  refine ingestAll_preserves_clean caps rs [] s ?_ h
  intro nd hnd
  simp at hnd

/-- Witness for C10: all entries of the worked scenario's result state have
their transient `node_id` popped. -/
theorem entries_have_node_id_popped_witness : EntriesClean exampleResult :=
  entries_have_node_id_popped [exampleCapacity] [exampleUsage] exampleResult
    ingestAll_example

/-! ## Sign and rounding facts about the percentage calculator -/

theorem convert_nonneg (u : String) {v : ℚ} (h : 0 ≤ v) : 0 ≤ convert v u := by
  unfold convert convert_milicores_to_cores convert_mb_to_gb
  dsimp only
  split_ifs
  · exact div_nonneg (div_nonneg h (by norm_num)) (by norm_num)
  · exact div_nonneg h (by norm_num)
  · exact div_nonneg h (by norm_num)
  · exact h

theorem calculate_percentage_nonneg (capacity usage : ℚ)
    (capacity_unit usage_unit : String)
    (hc : 0 ≤ capacity) (hu : 0 ≤ usage) :
    0 ≤ calculate_percentage capacity usage capacity_unit usage_unit := by
  unfold calculate_percentage
  dsimp only
  split_ifs
  · exact le_refl 0
  · exact round4_nonneg
      (mul_nonneg (div_nonneg (convert_nonneg usage_unit hu) hc) (by norm_num))

theorem calculate_percentage_rounded (capacity usage : ℚ)
    (capacity_unit usage_unit : String) :
    calculate_percentage capacity usage capacity_unit usage_unit =
      round4 (calculate_percentage capacity usage capacity_unit usage_unit) := by
  unfold calculate_percentage
  dsimp only
  split_ifs
  · exact round4_zero.symm
  · exact (round4_idem _).symm

/-- Counterexample to C9 as stated: a usage record with `pod_usage_cpu = -4`
(unit `"cores"`, against capacity 4) produces `cpu_usage_percentage = -100`,
which is negative; the code accepts negative readings unchecked. -/
theorem bundle_nonneg_counterexample :
    (metric_usage_percentage [exampleCapacity] negativeUsage).map
        (fun b => b.cpu_usage_percentage) = some (-100) ∧
    ¬ (0 : ℚ) ≤ (-100 : ℚ) := by
  constructor
  · unfold metric_usage_percentage
    rw [show lookupCapacity [exampleCapacity] negativeUsage.node_id
        negativeUsage.nspace negativeUsage.pod_name = some exampleCapacity
      from rfl]
    simp only [Option.map_some', Option.some.injEq, exampleCapacity,
      negativeUsage]
    unfold calculate_percentage
    rw [convert_other (-4) "cores" (by decide) (by decide)]
    norm_num [round4, roundHalfEven_eq]
  · norm_num

/-- C9 (amended): for every usage record whose capacity lookup succeeds,
provided the capacity figures and the four usage/request readings are
non-negative, each of the four values of the computed percentage bundle is
non-negative and is its own rounding to 4 decimal places, and is exactly 0
when the corresponding capacity is zero.  (As stated the claim is false:
the source accepts negative readings and then produces negative
percentages.) -/
theorem bundle_nonneg_of_nonneg_inputs (caps : List CapacityRecord)
    (r : UsageRecord) (c : CapacityRecord)
    (hlook : lookupCapacity caps r.node_id r.nspace r.pod_name = some c)
    (hccpu : 0 ≤ c.node_capacity_cpu) (hcmem : 0 ≤ c.node_capacity_memory)
    (h1 : 0 ≤ r.pod_usage_cpu) (h2 : 0 ≤ r.pod_usage_memory)
    (h3 : 0 ≤ r.pod_request_cpu) (h4 : 0 ≤ r.pod_request_memory) :
    ∃ b, metric_usage_percentage caps r = some b ∧
      (0 ≤ b.cpu_usage_percentage ∧
        b.cpu_usage_percentage = round4 b.cpu_usage_percentage) ∧
      (0 ≤ b.memory_usage_percentage ∧
        b.memory_usage_percentage = round4 b.memory_usage_percentage) ∧
      (0 ≤ b.cpu_request_percentage ∧
        b.cpu_request_percentage = round4 b.cpu_request_percentage) ∧
      (0 ≤ b.memory_request_percentage ∧
        b.memory_request_percentage = round4 b.memory_request_percentage) ∧
      (c.node_capacity_cpu = 0 →
        b.cpu_usage_percentage = 0 ∧ b.cpu_request_percentage = 0) ∧
      (c.node_capacity_memory = 0 →
        b.memory_usage_percentage = 0 ∧ b.memory_request_percentage = 0) := by
  unfold metric_usage_percentage
  rw [hlook]
  refine ⟨_, rfl, ⟨?_, ?_⟩, ⟨?_, ?_⟩, ⟨?_, ?_⟩, ⟨?_, ?_⟩, ?_, ?_⟩
  · exact calculate_percentage_nonneg c.node_capacity_cpu r.pod_usage_cpu
      c.node_capacity_cpu_unit r.pod_usage_cpu_unit hccpu h1
  · exact calculate_percentage_rounded c.node_capacity_cpu r.pod_usage_cpu
      c.node_capacity_cpu_unit r.pod_usage_cpu_unit
  · exact calculate_percentage_nonneg c.node_capacity_memory r.pod_usage_memory
      c.node_capacity_memory_unit r.pod_usage_memory_unit hcmem h2
  · exact calculate_percentage_rounded c.node_capacity_memory r.pod_usage_memory
      c.node_capacity_memory_unit r.pod_usage_memory_unit
  · exact calculate_percentage_nonneg c.node_capacity_cpu r.pod_request_cpu
      c.node_capacity_cpu_unit r.pod_request_cpu_unit hccpu h3
  · exact calculate_percentage_rounded c.node_capacity_cpu r.pod_request_cpu
      c.node_capacity_cpu_unit r.pod_request_cpu_unit
  · exact calculate_percentage_nonneg c.node_capacity_memory r.pod_request_memory
      c.node_capacity_memory_unit r.pod_request_memory_unit hcmem h4
  · exact calculate_percentage_rounded c.node_capacity_memory r.pod_request_memory
      c.node_capacity_memory_unit r.pod_request_memory_unit
  · intro hz
    constructor
    · show calculate_percentage c.node_capacity_cpu r.pod_usage_cpu
        c.node_capacity_cpu_unit r.pod_usage_cpu_unit = 0
      rw [hz]
      simp [calculate_percentage]
    · show calculate_percentage c.node_capacity_cpu r.pod_request_cpu
        c.node_capacity_cpu_unit r.pod_request_cpu_unit = 0
      rw [hz]
      simp [calculate_percentage]
  · intro hz
    constructor
    · show calculate_percentage c.node_capacity_memory r.pod_usage_memory
        c.node_capacity_memory_unit r.pod_usage_memory_unit = 0
      rw [hz]
      simp [calculate_percentage]
    · show calculate_percentage c.node_capacity_memory r.pod_request_memory
        c.node_capacity_memory_unit r.pod_request_memory_unit = 0
      rw [hz]
      simp [calculate_percentage]

/-- Witness for the amended C9, at the worked scenario's records. -/
theorem bundle_nonneg_of_nonneg_inputs_witness :
    ∃ b, metric_usage_percentage [exampleCapacity] exampleUsage = some b ∧
      (0 ≤ b.cpu_usage_percentage ∧
        b.cpu_usage_percentage = round4 b.cpu_usage_percentage) ∧
      (0 ≤ b.memory_usage_percentage ∧
        b.memory_usage_percentage = round4 b.memory_usage_percentage) ∧
      (0 ≤ b.cpu_request_percentage ∧
        b.cpu_request_percentage = round4 b.cpu_request_percentage) ∧
      (0 ≤ b.memory_request_percentage ∧
        b.memory_request_percentage = round4 b.memory_request_percentage) ∧
      (exampleCapacity.node_capacity_cpu = 0 →
        b.cpu_usage_percentage = 0 ∧ b.cpu_request_percentage = 0) ∧
      (exampleCapacity.node_capacity_memory = 0 →
        b.memory_usage_percentage = 0 ∧ b.memory_request_percentage = 0) :=
  bundle_nonneg_of_nonneg_inputs [exampleCapacity] exampleUsage exampleCapacity
    rfl (by norm_num [exampleCapacity]) (by norm_num [exampleCapacity])
    (by norm_num [exampleUsage]) (by norm_num [exampleUsage])
    (by norm_num [exampleUsage]) (by norm_num [exampleUsage])

end OpenshiftCollector
